import Mathlib

/-!
Shallow embedding of the core of `project-net` (a point-to-point secure
channel library written in Rust) together with proofs about its wire codec,
handshake key schedule, record layer and endpoint read/write paths.

Bytes are modelled as natural numbers (each `< 256` where it matters), byte
strings as `List Nat`, and the 16-bit message numbers as `Nat` with explicit
bounds.  The transport is modelled as a list of chunks: each call to the
underlying `read` delivers a prefix of the first chunk, exactly as a
`std::io::Read` implementation may deliver fewer bytes than requested.

The cryptographic primitives (X25519-style key agreement, SHA-256, and the
AEAD construction from `proj_crypto::symmetric`) are external black boxes for
the repository; they are modelled as function parameters, with the contracts
the specification lists for them stated as explicit hypotheses
(`GoodAEAD`).
-/

namespace ProjNet

/-! ## Opcodes (`src/common/message/opcodes.rs`) -/

namespace opcodes

def ERROR : Nat := 0
def DEVICE_FIRST : Nat := 1
def SERVER_FIRST : Nat := 2
def MAX_NOCRYPT : Nat := SERVER_FIRST
def DEVICE_SECOND : Nat := 3
def MESSAGE : Nat := 4
def STOP : Nat := 7
def CONST_MSG_LEN : Nat := 1
def STOP_CONTENTS : Nat := 0

end opcodes

/-! ## Sizes of the fixed-width fields -/

def PUBLIC_KEY_BYTES : Nat := 32
def CHALLENGE_BYTES : Nat := 32
def AUTH_TAG_BYTES : Nat := 16

/-! ## Integer codec (`send.rs::u16_to_bytes`, `receive.rs::two_bytes_to_u16`) -/

/-- Embedding of `send.rs::u16_to_bytes`: most significant byte first, each
byte truncated with the `as u8` cast. -/
def u16_to_bytes (n : Nat) : List Nat :=
  [(n >>> 8) % 256, (n &&& 0x00FF) % 256]

/-- Embedding of `receive.rs::two_bytes_to_u16`:
`bytes[1] as u16 + ((bytes[0] as u16) << 8)`. -/
def two_bytes_to_u16 (bytes : List Nat) : Nat :=
  bytes.getD 1 0 + (bytes.getD 0 0 <<< 8)

/-- Embedding of `send.rs::construct_header`: opcode byte followed by the
big-endian message number. -/
def construct_header (opcode : Nat) (message_number : Nat) : List Nat :=
  opcode :: u16_to_bytes message_number

theorem two_bytes_to_u16_u16_to_bytes (n : Nat) (h : n < 65536) :
    two_bytes_to_u16 (u16_to_bytes n) = n := by
  have hand : n &&& 0x00FF = n % 256 := Nat.and_pow_two_sub_one_eq_mod n 8
  simp only [u16_to_bytes, two_bytes_to_u16, List.getD_cons_succ, List.getD_cons_zero,
    Nat.shiftRight_eq_div_pow, Nat.shiftLeft_eq, hand]
  norm_num
  omega

/-! ## The symmetric AEAD state (`proj_crypto::symmetric::State`), modelled as
a record of the operations the repository calls on it.  The primitive itself
is outside the repository; theorems that depend on its behaviour take the
contract stated in the specification as the hypothesis `GoodAEAD`. -/

structure State where
  authenticated_encryption : List Nat → Nat → List Nat
  authenticated_decryption : List Nat → Nat → Option (List Nat)
  plain_auth_tag : List Nat → Nat → List Nat
  verify_auth_tag : List Nat → List Nat → Nat → Bool

/-- Contract of the AEAD primitive as the specification states it:
decryption inverts encryption, a produced tag verifies, encryption adds
exactly 16 bytes of tag, and a plain tag is 16 bytes long. -/
def GoodAEAD (st : State) : Prop :=
  (∀ m n, st.authenticated_decryption (st.authenticated_encryption m n) n = some m) ∧
  (∀ m n, (st.authenticated_encryption m n).length = m.length + AUTH_TAG_BYTES) ∧
  (∀ d n, st.verify_auth_tag (st.plain_auth_tag d n) d n = true) ∧
  (∀ d n, (st.plain_auth_tag d n).length = AUTH_TAG_BYTES)

/-- Session keys (`lib.rs::SessionKeys`): one symmetric state per direction. -/
structure SessionKeys where
  from_device : State
  from_server : State

/-! ## Message data (`src/common/message/mod.rs`) -/

namespace message

inductive Error where
  | Read
  | Write
  | NotEnoughRead (n : Nat)
  | NotEnoughWritten (n : Nat)
  | InvalidOpcode
  | Crypto
  | PubKeyId
  | BadPacket
deriving DecidableEq

inductive MessageContent where
  | DeviceFirst (pk : List Nat) (key_id : List Nat)
  | ServerFirst (pk : List Nat) (challenge : List Nat) (server_long_pk : List Nat)
  | DeviceSecond
  | Error
  | Message (v : List Nat)
  | Stop
deriving DecidableEq

structure Message where
  number : Nat
  content : MessageContent
deriving DecidableEq

end message

/-! ## The transport source, modelled as a list of chunks.  One call to the
underlying `read` with a buffer of length `bufLen` delivers up to `bufLen`
bytes from the head chunk; undelivered bytes of that chunk stay at the head
of the stream.  An empty stream delivers zero bytes (end of stream). -/

abbrev Stream := List (List Nat)

def readOnce (source : Stream) (bufLen : Nat) : List Nat × Stream :=
  match source with
  | [] => ([], [])
  | chunk :: rest =>
    let taken := chunk.take bufLen
    let leftover := chunk.drop bufLen
    (taken, if leftover.isEmpty then rest else leftover :: rest)

/-- Total number of bytes remaining in the source. -/
def stream_length (source : Stream) : Nat :=
  (source.map List.length).sum

/-! ## Receiving (`src/common/message/receive.rs`) -/

namespace receive

open message

/-- Embedding of `receive.rs::get_n_bytes`: one call to `source.read` on a
buffer of `n` bytes; `Ok` exactly when that single call delivered `n` bytes,
`NotEnoughRead` otherwise. -/
def get_n_bytes (source : Stream) (n : Nat) : Except Error (List Nat × Stream) :=
  let read_result := readOnce source n
  if read_result.1.length = n then .ok read_result
  else .error (.NotEnoughRead read_result.1.length)

/-- Embedding of `receive.rs::get_header`: 3 bytes, split into the opcode and
the big-endian message number. -/
def get_header (source : Stream) : Except Error (Nat × Nat × Stream) :=
  match get_n_bytes source 3 with
  | .error e => .error e
  | .ok (header_buffer, s) =>
    .ok (header_buffer.getD 0 0, two_bytes_to_u16 (header_buffer.drop 1), s)

/-- Embedding of `receive.rs::parse_clear_message`. -/
def parse_clear_message (source : Stream) (opcode : Nat) (message_number : Nat) :
    Except Error (Message × Stream) :=
  if opcode = opcodes.ERROR then
    .ok (⟨message_number, .Error⟩, source)
  else if opcode = opcodes.DEVICE_FIRST then
    if message_number ≠ 0 then .error .BadPacket
    else
      match get_n_bytes source PUBLIC_KEY_BYTES with
      | .error e => .error e
      | .ok (pub_key_bytes, s1) =>
        match get_n_bytes s1 32 with
        | .error e => .error e
        | .ok (key_id_bytes, s2) =>
          .ok (⟨message_number, .DeviceFirst pub_key_bytes key_id_bytes⟩, s2)
  else .error .InvalidOpcode

/-- Embedding of `receive.rs::parse_constant_contents_message` (STOP). -/
def parse_constant_contents_message (source : Stream) (message_number : Nat)
    (session_keys : State) : Except Error (Message × Stream) :=
  match get_n_bytes source (opcodes.CONST_MSG_LEN + AUTH_TAG_BYTES) with
  | .error e => .error e
  | .ok (ciphertext, s1) =>
    match session_keys.authenticated_decryption ciphertext message_number with
    | none => .error .Crypto
    | some plaintext =>
      if plaintext.length ≠ opcodes.CONST_MSG_LEN then .error .BadPacket
      else if plaintext.getD 0 0 = opcodes.STOP_CONTENTS then
        .ok (⟨message_number, .Stop⟩, s1)
      else .error .Crypto

/-- Embedding of `receive.rs::parse_crypt_message`. -/
def parse_crypt_message (source : Stream) (opcode : Nat) (message_number : Nat)
    (session_keys : State) : Except Error (Message × Stream) :=
  if opcode = opcodes.ERROR then
    .ok (⟨message_number, .Error⟩, source)
  else if opcode = opcodes.MESSAGE then
    match get_n_bytes source (2 + AUTH_TAG_BYTES) with
    | .error e => .error e
    | .ok (fixed_fields, s1) =>
      let length_bytes := fixed_fields.take 2
      let auth_tag := fixed_fields.drop 2
      if session_keys.verify_auth_tag auth_tag length_bytes message_number then
        let length := two_bytes_to_u16 length_bytes
        match get_n_bytes s1 (length + AUTH_TAG_BYTES) with
        | .error e => .error e
        | .ok (ciphertext, s2) =>
          match session_keys.authenticated_decryption ciphertext message_number with
          | none => .error .Crypto
          | some plaintext => .ok (⟨message_number, .Message plaintext⟩, s2)
      else .error .Crypto
  else if opcode = opcodes.STOP then
    parse_constant_contents_message source message_number session_keys
  else .error .InvalidOpcode

/-- Embedding of `receive.rs::general`: opcodes up to `MAX_NOCRYPT` are
parsed without the session keys, the rest with them. -/
def general (source : Stream) (session_keys : State) :
    Except Error (Message × Stream) :=
  match get_header source with
  | .error e => .error e
  | .ok (opcode, message_number, s1) =>
    if opcode ≤ opcodes.MAX_NOCRYPT then
      parse_clear_message s1 opcode message_number
    else
      parse_crypt_message s1 opcode message_number session_keys

/-- Embedding of `receive.rs::receive_device_first`. -/
def receive_device_first (source : Stream) : Except Error (Message × Stream) :=
  match get_header source with
  | .error e => .error e
  | .ok (opcode, message_number, s1) =>
    parse_clear_message s1 opcode message_number

end receive

/-! ## External asymmetric primitives, passed in as parameters.  The
repository consumes `key_exchange`, `sha256`, `id_of_pk` and
`symmetric::State::new` from `proj_crypto`/`sodiumoxide`; their argument
patterns below mirror the call sites exactly. -/

structure Prims where
  key_exchange : List Nat → List Nat → List Nat → Bool → List Nat
  sha256 : List Nat → List Nat
  id_of_pk : List Nat → List Nat
  state_new : List Nat → List Nat → State

namespace receive

open message

/-- Embedding of `receive.rs::server_first`.  The key-agreement primitive and
`symmetric::State::new` are external, supplied through `P`; the trusted-key
lookup `proj_crypto::...::find_public_key` over the caller's map is supplied
as the function `find_public_key`. -/
def server_first (P : Prims) (find_public_key : List Nat → Option (List Nat))
    (session_keypair : List Nat × List Nat) (source : Stream) :
    Except Error (Message × Stream) :=
  match get_header source with
  | .error e => .error e
  | .ok (opcode, message_number, s1) =>
    if opcode = opcodes.ERROR then .ok (⟨message_number, .Error⟩, s1)
    else if opcode = opcodes.SERVER_FIRST then
      if message_number ≠ 0 then .error .BadPacket
      else
        match get_n_bytes s1 (PUBLIC_KEY_BYTES + CHALLENGE_BYTES + 32 + AUTH_TAG_BYTES) with
        | .error e => .error e
        | .ok (buff, s2) =>
          let key_id_bytes := buff.take 32
          let authenticated_bit := buff.drop 32
          match find_public_key key_id_bytes with
          | none => .error .PubKeyId
          | some server_long_pk =>
            let auth_tag := authenticated_bit.take AUTH_TAG_BYTES
            let the_rest := authenticated_bit.drop AUTH_TAG_BYTES
            let from_server_auth :=
              P.key_exchange server_long_pk session_keypair.2 session_keypair.1 true
            let server_authenticator := P.state_new from_server_auth from_server_auth
            if server_authenticator.verify_auth_tag auth_tag the_rest message_number then
              .ok (⟨message_number,
                    .ServerFirst (the_rest.take PUBLIC_KEY_BYTES)
                      (the_rest.drop PUBLIC_KEY_BYTES) server_long_pk⟩, s2)
            else .error .Crypto
    else .error .InvalidOpcode

/-- Embedding of `receive.rs::device_second`. -/
def device_second (session_keys : SessionKeys) (challenge : List Nat)
    (source : Stream) : Except Error (Message × Stream) :=
  match get_header source with
  | .error e => .error e
  | .ok (opcode, message_number, s1) =>
    if opcode = opcodes.ERROR then .ok (⟨message_number, .Error⟩, s1)
    else if opcode = opcodes.DEVICE_SECOND then
      if message_number ≠ 1 then .error .BadPacket
      else
        match get_n_bytes s1 (CHALLENGE_BYTES + AUTH_TAG_BYTES) with
        | .error e => .error e
        | .ok (contents, s2) =>
          match session_keys.from_device.authenticated_decryption contents
              message_number with
          | none => .error .Crypto
          | some challenge_recvd =>
            if challenge_recvd = challenge then
              .ok (⟨message_number, .DeviceSecond⟩, s2)
            else .error .Crypto
    else .error .InvalidOpcode

end receive

/-! ## Sending (`src/common/message/send.rs`).  The destination writer always
accepts the full buffer in this model, so each sender returns the exact byte
string it writes. -/

namespace send

/-- Embedding of `send.rs::hash_two_things`: SHA-256 of the concatenation. -/
def hash_two_things (sha256 : List Nat → List Nat) (thing1 thing2 : List Nat) :
    List Nat :=
  sha256 (thing1 ++ thing2)

/-- The byte string `b"device"`. -/
def DEVICE_ENC_KEY_CONSTANT : List Nat := [100, 101, 118, 105, 99, 101]

/-- The byte string `b"server"`. -/
def SERVER_ENC_KEY_CONSTANT : List Nat := [115, 101, 114, 118, 101, 114]

/-- Embedding of `send.rs::message`: DATA header, big-endian payload length,
plain tag over the length bytes, then the AEAD ciphertext of the payload, all
under the given message number. -/
def message (msg : List Nat) (session_keys : State) (message_number : Nat) :
    List Nat :=
  construct_header opcodes.MESSAGE message_number
    ++ u16_to_bytes msg.length
    ++ session_keys.plain_auth_tag (u16_to_bytes msg.length) message_number
    ++ session_keys.authenticated_encryption msg message_number

/-- Embedding of `send.rs::error`: a bare header. -/
def error (message_number : Nat) : List Nat :=
  construct_header opcodes.ERROR message_number

/-- Embedding of `send.rs::stop`. -/
def stop (session_keys : State) (message_number : Nat) : List Nat :=
  construct_header opcodes.STOP message_number
    ++ session_keys.authenticated_encryption [opcodes.STOP_CONTENTS] message_number

/-- Embedding of `send.rs::server_first`.  The ephemeral keypair and the
random challenge are produced by external randomness, so they are inputs
here.  Returns the session keys it derives together with the message bytes
written. -/
def server_first (P : Prims) (long_term_keypair : List Nat × List Nat)
    (eph_keypair : List Nat × List Nat) (challenge : List Nat)
    (device_session_pk device_long_pk : List Nat) :
    SessionKeys × List Nat :=
  let pub_key := eph_keypair.1
  let sec_key := eph_keypair.2
  let encryption_key_shared := P.key_exchange device_session_pk sec_key pub_key false
  let device_enc_key :=
    hash_two_things P.sha256 encryption_key_shared DEVICE_ENC_KEY_CONSTANT
  let server_enc_key :=
    hash_two_things P.sha256 encryption_key_shared SERVER_ENC_KEY_CONSTANT
  let device_auth_key := P.key_exchange device_long_pk sec_key pub_key false
  let server_auth_key :=
    P.key_exchange device_session_pk long_term_keypair.2 long_term_keypair.1 false
  let session_keys : SessionKeys :=
    ⟨P.state_new device_enc_key device_auth_key,
     P.state_new server_enc_key server_auth_key⟩
  let plaintext := pub_key ++ challenge
  let auth_tag := session_keys.from_server.plain_auth_tag plaintext 0
  let msg := construct_header opcodes.SERVER_FIRST 0
    ++ P.id_of_pk long_term_keypair.1 ++ auth_tag ++ plaintext
  (session_keys, msg)

/-- Embedding of `send.rs::device_second`.  Returns the session keys the
device derives together with the message bytes written. -/
def device_second (P : Prims) (server_long_pk server_session_pk : List Nat)
    (challenge : List Nat) (long_keypair session_keypair : List Nat × List Nat) :
    SessionKeys × List Nat :=
  let from_server_auth :=
    P.key_exchange server_long_pk session_keypair.2 session_keypair.1 true
  let from_device_auth :=
    P.key_exchange server_session_pk long_keypair.2 long_keypair.1 true
  let encryption_key_shared :=
    P.key_exchange server_session_pk session_keypair.2 session_keypair.1 true
  let device_enc_key :=
    hash_two_things P.sha256 encryption_key_shared DEVICE_ENC_KEY_CONSTANT
  let server_enc_key :=
    hash_two_things P.sha256 encryption_key_shared SERVER_ENC_KEY_CONSTANT
  let session_keys : SessionKeys :=
    ⟨P.state_new device_enc_key from_device_auth,
     P.state_new server_enc_key from_server_auth⟩
  let ciphertext := session_keys.from_device.authenticated_encryption challenge 1
  let msg := construct_header opcodes.DEVICE_SECOND 1 ++ ciphertext
  (session_keys, msg)

end send

/-! ## The endpoint counters (`src/common/mod.rs::ProtocolState`).  Only the
two `u16` message counters matter to the properties below; the transport, the
long-term keys and the session keys are carried separately. -/

structure ProtocolState where
  next_send_n : Nat
  next_recv_n : Nat
deriving DecidableEq

/-- Embedding of `ProtocolState::next_message_number`, with explicit fuel for
the recursive call the source makes in its overflow branch.  In the source,
when `next_send_n == u16::MAX` the function first calls itself with the state
unchanged (to obtain a number for the error packet) and would only then send
an error and panic; the recursive call therefore never returns, which the
model expresses as `none` for every amount of fuel. -/
def next_message_number_fuel : Nat → ProtocolState → Option (Nat × ProtocolState)
  | 0, _ => none
  | fuel + 1, st =>
    if st.next_send_n = 65535 then
      match next_message_number_fuel fuel st with
      | none => none
      | some _ => none
    else
      some (st.next_send_n, ⟨st.next_send_n + 1, st.next_recv_n⟩)

/-- Fuel-free form of `next_message_number`: `none` marks the overflow branch
from which the source never returns normally. -/
def next_message_number (st : ProtocolState) : Option (Nat × ProtocolState) :=
  if st.next_send_n = 65535 then none
  else some (st.next_send_n, ⟨st.next_send_n + 1, st.next_recv_n⟩)

theorem next_message_number_fuel_eq (fuel : Nat) (st : ProtocolState) :
    next_message_number_fuel (fuel + 1) st = next_message_number st := by
  by_cases h : st.next_send_n = 65535
  · simp only [next_message_number_fuel, next_message_number, h, if_true]
    cases next_message_number_fuel fuel st <;> rfl
  · simp [next_message_number_fuel, next_message_number, h]

/-- Embedding of `ProtocolState::check_recv_number`.  The two failing
branches call `next_message_number` (for the error packet they send), so they
inherit its divergence when `next_send_n` is saturated; `none` marks that
case. -/
def check_recv_number (st : ProtocolState) (num : Nat) :
    Option (Bool × ProtocolState) :=
  if st.next_recv_n ≠ num then
    match next_message_number st with
    | none => none
    | some (_, st') => some (false, st')
  else if st.next_recv_n = 65535 then
    match next_message_number st with
    | none => none
    | some (_, st') => some (false, st')
  else
    some (true, ⟨st.next_send_n, st.next_recv_n + 1⟩)

/-- The `std::io::Error` values the endpoint layer produces. -/
inductive IoError where
  | readErr
  | other (msg : String)
  | invalidData (msg : String)
deriving DecidableEq

/-- Semantics of `Vec::append(&mut self, other)`: every element of `other` is
moved into `self`, leaving `other` empty. -/
def vec_append_move (buf v : List Nat) : List Nat × List Nat :=
  (buf ++ v, [])

/-- Embedding of `common/mod.rs::general_read` for one direction, taking the
already-selected symmetric state.  Returns `none` when the source diverges in
`check_recv_number`; otherwise the `io::Result` value, paired on success with
the returned count, the caller's grown buffer, the updated counters and the
remaining transport bytes. -/
def general_read (st : ProtocolState) (symmetric_state : State)
    (buf : List Nat) (source : Stream) :
    Option (Except IoError (Nat × List Nat × ProtocolState × Stream)) :=
  match receive.general source symmetric_state with
  | .error message_error =>
    match message_error with
    | .Read => some (.error .readErr)
    | _ => some (.error (.other "error receiving the message"))
  | .ok (m, source') =>
    match check_recv_number st m.number with
    | none => none
    | some (false, _) =>
      some (.error (.other "received the wrong message number"))
    | some (true, st') =>
      match m.content with
      | .Message v =>
        let moved := vec_append_move buf v
        some (.ok (moved.2.length, moved.1, st', source'))
      | _ => some (.ok (0, buf, st', source'))

/-- Error text of the oversize branch of `general_write`. -/
def TOO_LONG_MSG : String :=
  "The buffer was too long for a single message packet. Splitting it is not yet implemented. Please keep to buf.len() <= u16::max_value()"

/-- Embedding of `common/mod.rs::general_write` for one direction.  Returns
`none` when `next_message_number` diverges; otherwise the updated counters,
the bytes emitted on the transport, and the `io::Result` return value. -/
def general_write (st : ProtocolState) (symmetric_state : State)
    (buf : List Nat) :
    Option (ProtocolState × List Nat × Except IoError Nat) :=
  if buf.length > 65535 then
    some (st, [], .error (.invalidData TOO_LONG_MSG))
  else
    match next_message_number st with
    | none => none
    | some (message_n, st') =>
      some (st', send.message buf symmetric_state message_n, .ok buf.length)

/-- Embedding of `Client::read` / `Server::read` (identical bodies):
unconditionally run `general_read` into the residual buffer `read_buff`, then
drain up to `buf_len` bytes from its head into the caller's buffer.  On
success, returns the bytes delivered to the caller, the remaining residual
buffer, the updated counters and the remaining transport bytes. -/
def endpoint_read (st : ProtocolState) (symmetric_state : State)
    (read_buff : List Nat) (source : Stream) (buf_len : Nat) :
    Option (Except IoError (List Nat × List Nat × ProtocolState × Stream)) :=
  match general_read st symmetric_state read_buff source with
  | none => none
  | some (.error e) => some (.error e)
  | some (.ok (_, read_buff', st', source')) =>
    let num_elements :=
      if buf_len > read_buff'.length then read_buff'.length else buf_len
    some (.ok (read_buff'.take num_elements, read_buff'.drop num_elements,
               st', source'))

/-! ## Concrete instances of the external primitives, used to evaluate the
theorems below on closed inputs. -/

/-- A concrete symmetric state satisfying the AEAD contract: the tag is 16
zero bytes and encryption appends it. -/
def model_state : State where
  authenticated_encryption m _ := m ++ List.replicate 16 0
  authenticated_decryption c _ :=
    if 16 ≤ c.length then some (c.take (c.length - 16)) else none
  plain_auth_tag _ _ := List.replicate 16 0
  verify_auth_tag t _ _ := t == List.replicate 16 0

theorem model_state_good : GoodAEAD model_state := by
  refine ⟨fun m n => ?_, fun m n => ?_, fun d n => ?_, fun d n => ?_⟩
  · simp [model_state, AUTH_TAG_BYTES]
  · simp [model_state, AUTH_TAG_BYTES]
  · simp [model_state]
  · simp [model_state, AUTH_TAG_BYTES]

/-- A symmetric state whose tag records the keys it was built from, so that
states built from different key material are distinguishable. -/
def keyed_state (ek ak : List Nat) : State where
  authenticated_encryption m _ := m ++ List.replicate 16 0
  authenticated_decryption c _ :=
    if 16 ≤ c.length then some (c.take (c.length - 16)) else none
  plain_auth_tag _ _ := ek ++ ak
  verify_auth_tag t _ _ := t == ek ++ ak

/-- Concrete primitives for witnesses: the key exchange multiplies the first
bytes of the two keys, so that with keypairs whose public and secret halves
are equal it is symmetric across the exchange. -/
def model_prims : Prims where
  key_exchange p s _ _ := [p.headD 0 * s.headD 0]
  sha256 l := l
  id_of_pk pk := pk
  state_new := keyed_state


/-! ## Claim theorems -/

/-- When the head chunk starts with exactly the `n` requested bytes,
`get_n_bytes` returns them and leaves the remainder at the head. -/
theorem get_n_bytes_append (pre post : List Nat) (rest : Stream) (n : Nat)
    (h : pre.length = n) :
    receive.get_n_bytes ((pre ++ post) :: rest) n =
      .ok (pre, if post.isEmpty then rest else post :: rest) := by
  simp [receive.get_n_bytes, readOnce, List.take_left' h, List.drop_left' h, h]

/-- Reading the header of a record laid out as `construct_header op n ++ body`
yields the opcode and number back, leaving the body in the source. -/
theorem get_header_append (op n : Nat) (body : List Nat) (hn : n < 65536) :
    receive.get_header [construct_header op n ++ body] =
      .ok (op, n, if body.isEmpty then [] else [body]) := by
  have h3 : (construct_header op n).length = 3 := by
    simp [construct_header, u16_to_bytes]
  unfold receive.get_header
  rw [get_n_bytes_append _ _ _ _ h3]
  simp only [construct_header, List.getD_cons_zero, List.drop_succ_cons,
    List.drop_zero]
  rw [two_bytes_to_u16_u16_to_bytes n hn]

/-- C6: for every reachable (16-bit representable) endpoint state,
`check_recv_number` accepts exactly when the inbound number matches
`next_recv_n` and `next_recv_n < 65535`, in which case `next_recv_n` grows by
exactly 1 and stays within the 16-bit range (never wraps) while `next_send_n`
is untouched; a rejected record leaves `next_recv_n` unchanged.  Likewise
`next_message_number` only ever returns the current `next_send_n`, bumping it
by exactly 1 without wrapping past 65535. -/
theorem c6_counters :
    (∀ (st : ProtocolState) (num : Nat) (b : Bool) (st' : ProtocolState),
        st.next_recv_n ≤ 65535 →
        check_recv_number st num = some (b, st') →
        ((b = true) ↔ (num = st.next_recv_n ∧ st.next_recv_n < 65535)) ∧
        (b = true → st'.next_recv_n = st.next_recv_n + 1 ∧
          st'.next_recv_n ≤ 65535 ∧ st'.next_send_n = st.next_send_n) ∧
        (b = false → st'.next_recv_n = st.next_recv_n)) ∧
    (∀ (st : ProtocolState) (n : Nat) (st' : ProtocolState),
        st.next_send_n ≤ 65535 →
        next_message_number st = some (n, st') →
        n = st.next_send_n ∧ st'.next_send_n = st.next_send_n + 1 ∧
        st'.next_send_n ≤ 65535) := by
  constructor
  · intro st num b st' hb h
    by_cases hne : st.next_recv_n = num
    · subst hne
      by_cases hmax : st.next_recv_n = 65535
      · by_cases hsend : st.next_send_n = 65535
        · simp [check_recv_number, next_message_number, hmax, hsend] at h
        · simp [check_recv_number, next_message_number, hmax, hsend] at h
          obtain ⟨rfl, rfl⟩ := h
          refine ⟨by simp [hmax], by simp, fun _ => hmax.symm⟩
      · simp [check_recv_number, hmax] at h
        obtain ⟨rfl, rfl⟩ := h
        refine ⟨by simp; omega, fun _ => ⟨rfl, ?_, rfl⟩, by simp⟩
        show st.next_recv_n + 1 ≤ 65535
        omega
    · by_cases hsend : st.next_send_n = 65535
      · simp [check_recv_number, next_message_number, hne, hsend] at h
      · simp [check_recv_number, next_message_number, hne, hsend] at h
        obtain ⟨rfl, rfl⟩ := h
        refine ⟨by simp; intro hc; exact absurd hc.symm hne, by simp, fun _ => rfl⟩
  · intro st n st' hs h
    unfold next_message_number at h
    by_cases hsend : st.next_send_n = 65535
    · simp [hsend] at h
    · simp [hsend] at h
      obtain ⟨rfl, rfl⟩ := h
      refine ⟨rfl, rfl, ?_⟩
      show st.next_send_n + 1 ≤ 65535
      omega

/-- C7 (code bug): with `next_send_n = 65535` the overflow branch of
`next_message_number` first calls itself with the state unchanged, so the
call never terminates for any amount of fuel — the `ERROR` send and the
panic after the recursive call are unreachable, contradicting the intended
"emit ERROR and close" treatment of `COUNTER_OVERFLOW`. -/
theorem c7_diverges (fuel : Nat) (st : ProtocolState)
    (h : st.next_send_n = 65535) :
    next_message_number_fuel fuel st = none := by
  induction fuel with
  | zero => rfl
  | succ k ih =>
    unfold next_message_number_fuel
    rw [if_pos h, ih]

/-- C8 (amended): `get_n_bytes` performs exactly one read call on the
source; it returns the `n` requested bytes iff that single call delivers
them (i.e. the head chunk holds at least `n` bytes), and otherwise reports
`NotEnoughRead` (SHORT_READ) with the short count — even when further bytes
remain in later chunks of the stream.  It never loops or accumulates. -/
theorem c8_single_read (chunk : List Nat) (rest : Stream) (n : Nat) :
    (n ≤ chunk.length →
      receive.get_n_bytes (chunk :: rest) n =
        .ok (chunk.take n,
             if (chunk.drop n).isEmpty then rest else chunk.drop n :: rest)) ∧
    (chunk.length < n →
      receive.get_n_bytes (chunk :: rest) n =
        .error (.NotEnoughRead chunk.length)) := by
  constructor
  · intro h
    simp [receive.get_n_bytes, readOnce, List.length_take, Nat.min_eq_left h]
  · intro h
    have htake : chunk.take n = chunk := List.take_of_length_le (le_of_lt h)
    have hne : chunk.length ≠ n := by omega
    simp [receive.get_n_bytes, readOnce, htake, hne]

/-- C8 counterexample: a source holding 2 bytes split across two chunks
makes `get_n_bytes _ 2` fail with `NotEnoughRead 1` although the stream is
not at end-of-stream (2 bytes remain), refuting the claim that it loops and
accumulates, reporting SHORT_READ only at end-of-stream. -/
theorem c8_counterexample :
    receive.get_n_bytes [[10], [20]] 2 = .error (.NotEnoughRead 1) ∧
    stream_length [[10], [20]] = 2 := ⟨rfl, rfl⟩

/-- C3 counterexample: writing the empty buffer does not return 0 without
emitting a record — `general_write` emits a full (37-byte) DATA record
carrying the empty payload and consumes a message number. -/
theorem c3_counterexample :
    general_write ⟨2, 1⟩ model_state [] =
      some (⟨3, 1⟩, [4, 0, 2, 0, 0] ++ List.replicate 32 0, .ok 0) ∧
    ([4, 0, 2, 0, 0] ++ List.replicate 32 0 : List Nat) ≠ [] := by
  refine ⟨?_, by simp⟩
  rfl

/-- C3 (amended): `general_write` returns INVALID_ARGUMENT (`InvalidData`)
without emitting anything when the buffer exceeds 65535 bytes; otherwise —
including for the empty buffer — it emits exactly one DATA record carrying
the buffer (provided the send counter is not saturated) and returns the
buffer's length. -/
theorem c3_write_spec (st : ProtocolState) (S : State) (buf : List Nat) :
    (buf.length > 65535 →
      general_write st S buf = some (st, [], .error (.invalidData TOO_LONG_MSG))) ∧
    (buf.length ≤ 65535 → st.next_send_n ≠ 65535 →
      general_write st S buf =
        some (⟨st.next_send_n + 1, st.next_recv_n⟩,
              send.message buf S st.next_send_n, .ok buf.length)) := by
  constructor
  · intro h
    simp [general_write, h]
  · intro h hs
    have hnot : ¬ buf.length > 65535 := by omega
    simp [general_write, next_message_number, hnot, hs]

/-- Witness for the amended C3: an oversized buffer and a 3-byte buffer. -/
theorem c3_witness :
    ((List.replicate 65536 0 : List Nat)).length > 65535 ∧
    general_write ⟨2, 1⟩ model_state (List.replicate 65536 0) =
      some (⟨2, 1⟩, [], .error (.invalidData TOO_LONG_MSG)) ∧
    general_write ⟨2, 1⟩ model_state [1, 2, 3] =
      some (⟨3, 1⟩, send.message [1, 2, 3] model_state 2, .ok 3) :=
  ⟨by rw [List.length_replicate]; omega,
   (c3_write_spec ⟨2, 1⟩ model_state (List.replicate 65536 0)).1
     (by rw [List.length_replicate]; omega),
   (c3_write_spec ⟨2, 1⟩ model_state [1, 2, 3]).2 (by decide) (by decide)⟩

/-- C4 counterexample: with a non-empty residual buffer `[9]`, `read` still
invokes `receive()`: on an empty transport it fails instead of draining the
residual byte, and when a DATA record is available it consumes it from the
transport and advances `next_recv_n` before draining. -/
theorem c4_counterexample :
    endpoint_read ⟨2, 1⟩ model_state [9] [] 1 =
      some (.error (.other "error receiving the message")) ∧
    endpoint_read ⟨2, 1⟩ model_state [9] [send.message [7] model_state 1] 1 =
      some (.ok ([9], [7], ⟨2, 2⟩, [])) := ⟨rfl, rfl⟩

/-- C4 (amended): `Client::read`/`Server::read` invoke `receive()` (via
`general_read`) exactly once on every call, regardless of whether the
residual buffer is empty, then drain `min |buf| |residual|` bytes from the
head of the residual buffer; a receive failure is returned without draining. -/
theorem c4_read_spec (st : ProtocolState) (S : State) (rb : List Nat)
    (source : Stream) (buf_len : Nat) :
    (general_read st S rb source = none →
      endpoint_read st S rb source buf_len = none) ∧
    (∀ e, general_read st S rb source = some (.error e) →
      endpoint_read st S rb source buf_len = some (.error e)) ∧
    (∀ r rb' st' source',
      general_read st S rb source = some (.ok (r, rb', st', source')) →
      endpoint_read st S rb source buf_len =
        some (.ok (rb'.take (min buf_len rb'.length),
                   rb'.drop (min buf_len rb'.length), st', source'))) := by
  refine ⟨?_, ?_, ?_⟩
  · intro h
    unfold endpoint_read
    rw [h]
  · intro e h
    unfold endpoint_read
    rw [h]
  · intro r rb' st' source' h
    have hmin : (if buf_len > rb'.length then rb'.length else buf_len) =
        min buf_len rb'.length := by
      rw [Nat.min_def]
      split <;> split <;> omega
    unfold endpoint_read
    simp only [h]
    rw [hmin]

/-- Witness for the amended C4 at a concrete DATA record. -/
theorem c4_witness :
    general_read ⟨2, 1⟩ model_state [9] [send.message [7] model_state 1] =
      some (.ok (0, [9, 7], ⟨2, 2⟩, [])) ∧
    endpoint_read ⟨2, 1⟩ model_state [9] [send.message [7] model_state 1] 1 =
      some (.ok ([9, 7].take (min 1 2), [9, 7].drop (min 1 2), ⟨2, 2⟩, [])) :=
  ⟨rfl,
   (c4_read_spec ⟨2, 1⟩ model_state [9] [send.message [7] model_state 1] 1).2.2
     0 [9, 7] ⟨2, 2⟩ [] rfl⟩

/-- C5 counterexample: an inbound ERROR record whose number matches
`next_recv_n` is not surfaced as a RemoteError/I-O error — `general_read`
returns `Ok 0` and even advances `next_recv_n`. -/
theorem c5_counterexample :
    general_read ⟨2, 1⟩ model_state [] [[0, 0, 1]] =
      some (.ok (0, [], ⟨2, 2⟩, [])) := rfl

/-- C5 (amended): a non-DATA record (ERROR, STOP, or any handshake record)
whose number matches `next_recv_n < 65535` is swallowed by the read path:
`general_read` accepts it, increments `next_recv_n`, and returns `Ok 0` with
the caller's buffer untouched, rather than propagating an error. -/
theorem c5_non_data_swallowed (st : ProtocolState) (S : State)
    (buf : List Nat) (source source' : Stream) (m : message.Message)
    (hrec : receive.general source S = .ok (m, source'))
    (hnum : m.number = st.next_recv_n) (hlt : st.next_recv_n < 65535)
    (hnd : ∀ v, m.content ≠ .Message v) :
    general_read st S buf source =
      some (.ok (0, buf, ⟨st.next_send_n, st.next_recv_n + 1⟩, source')) := by
  have hchk : check_recv_number st m.number =
      some (true, ⟨st.next_send_n, st.next_recv_n + 1⟩) := by
    unfold check_recv_number
    rw [hnum]
    simp [Nat.ne_of_lt hlt]
  unfold general_read
  simp only [hrec]
  simp only [hchk]

/-- Witness for the amended C5 at a concrete ERROR record. -/
theorem c5_witness :
    receive.general [[0, 0, 7]] model_state = .ok (⟨7, .Error⟩, []) ∧
    general_read ⟨5, 7⟩ model_state [1] [[0, 0, 7]] =
      some (.ok (0, [1], ⟨5, 8⟩, [])) :=
  ⟨rfl,
   c5_non_data_swallowed ⟨5, 7⟩ model_state [1] [[0, 0, 7]] [] ⟨7, .Error⟩
     rfl rfl (by decide)
     (fun v h => message.MessageContent.noConfusion h)⟩

/-- C10: whenever `general_read` returns `Ok n`, `n = 0`: the received
plaintext is moved (`Vec::append`) into the caller's buffer before its
length is taken, so the returned count never reflects the payload and the
buffer only ever grows by the received suffix. -/
theorem c10_read_returns_zero (st : ProtocolState) (S : State)
    (buf : List Nat) (source : Stream) (n : Nat) (buf' : List Nat)
    (st' : ProtocolState) (source' : Stream)
    (h : general_read st S buf source = some (.ok (n, buf', st', source'))) :
    n = 0 ∧ ∃ v, buf' = buf ++ v := by
  unfold general_read at h
  split at h
  · split at h <;> simp at h
  · split at h
    · simp at h
    · simp at h
    · split at h
      · simp only [vec_append_move] at h
        simp at h
        obtain ⟨h1, h2, -, -⟩ := h
        exact ⟨h1.symm, _, h2.symm⟩
      · simp at h
        obtain ⟨h1, h2, -, -⟩ := h
        exact ⟨h1.symm, [], by rw [← h2, List.append_nil]⟩

/-- Witness for C10: a 2-byte DATA payload grows the buffer but the
returned count is 0. -/
theorem c10_witness :
    general_read ⟨2, 1⟩ model_state [] [send.message [222, 173] model_state 1] =
      some (.ok (0, [222, 173], ⟨2, 2⟩, [])) ∧
    (0 = 0 ∧ ∃ v, [222, 173] = ([] : List Nat) ++ v) :=
  ⟨rfl,
   c10_read_returns_zero ⟨2, 1⟩ model_state [] [send.message [222, 173] model_state 1]
     0 [222, 173] ⟨2, 2⟩ [] rfl⟩

/-- C9: the receiver pins the handshake numbers — `receive_device_first`
rejects a DEVICE_FIRST numbered other than 0, `receive::server_first`
rejects a SERVER_FIRST numbered other than 0, and `receive::device_second`
rejects a DEVICE_SECOND numbered other than 1, each with BAD_PACKET, before
reading any body bytes. -/
theorem c9_handshake_numbers (P : Prims)
    (find_public_key : List Nat → Option (List Nat))
    (session_keypair : List Nat × List Nat) (session_keys : SessionKeys)
    (challenge : List Nat) (body : List Nat) (n : Nat) (hn : n < 65536) :
    (n ≠ 0 →
      receive.receive_device_first
          [construct_header opcodes.DEVICE_FIRST n ++ body] =
        .error .BadPacket) ∧
    (n ≠ 0 →
      receive.server_first P find_public_key session_keypair
          [construct_header opcodes.SERVER_FIRST n ++ body] =
        .error .BadPacket) ∧
    (n ≠ 1 →
      receive.device_second session_keys challenge
          [construct_header opcodes.DEVICE_SECOND n ++ body] =
        .error .BadPacket) := by
  have hh1 := get_header_append opcodes.DEVICE_FIRST n body hn
  have hh2 := get_header_append opcodes.SERVER_FIRST n body hn
  have hh3 := get_header_append opcodes.DEVICE_SECOND n body hn
  refine ⟨fun h0 => ?_, fun h0 => ?_, fun h1 => ?_⟩
  · unfold receive.receive_device_first
    simp only [hh1]
    simp [receive.parse_clear_message, opcodes.DEVICE_FIRST, opcodes.ERROR, h0]
  · unfold receive.server_first
    simp only [hh2]
    simp [opcodes.SERVER_FIRST, opcodes.ERROR, h0]
  · unfold receive.device_second
    simp only [hh3]
    simp [opcodes.DEVICE_SECOND, opcodes.ERROR, h1]

/-- Witness for C9 at number 5. -/
theorem c9_witness :
    (receive.receive_device_first [construct_header opcodes.DEVICE_FIRST 5 ++ []] =
      .error .BadPacket) ∧
    (receive.server_first model_prims (fun _ => none) ([2], [2])
        [construct_header opcodes.SERVER_FIRST 5 ++ []] =
      .error .BadPacket) ∧
    (receive.device_second ⟨model_state, model_state⟩ []
        [construct_header opcodes.DEVICE_SECOND 5 ++ []] =
      .error .BadPacket) :=
  have h := c9_handshake_numbers model_prims (fun _ => none) ([2], [2])
    ⟨model_state, model_state⟩ [] [] 5 (by decide)
  ⟨h.1 (by decide), h.2.1 (by decide), h.2.2 (by decide)⟩

/-- C2: assuming the Diffie–Hellman primitive agrees across each of the
three exchanges (ephemeral×ephemeral, device-long×server-ephemeral,
server-long×device-ephemeral), the SessionKeys the server derives in
`send::server_first` equal the ones the device derives in
`send::device_second`, and both equal
`from_device = (SHA-256(shared_enc ++ "device"), device auth DH)` and
`from_server = (SHA-256(shared_enc ++ "server"), server auth DH)`. -/
theorem c2_session_keys_agree (P : Prims)
    (dlk slk deph seph : List Nat × List Nat) (challenge : List Nat)
    (h1 : P.key_exchange deph.1 seph.2 seph.1 false =
          P.key_exchange seph.1 deph.2 deph.1 true)
    (h2 : P.key_exchange dlk.1 seph.2 seph.1 false =
          P.key_exchange seph.1 dlk.2 dlk.1 true)
    (h3 : P.key_exchange deph.1 slk.2 slk.1 false =
          P.key_exchange slk.1 deph.2 deph.1 true) :
    (send.server_first P slk seph challenge deph.1 dlk.1).1 =
      (send.device_second P slk.1 seph.1 challenge dlk deph).1 ∧
    (send.server_first P slk seph challenge deph.1 dlk.1).1.from_device =
      P.state_new
        (P.sha256 (P.key_exchange deph.1 seph.2 seph.1 false ++
          send.DEVICE_ENC_KEY_CONSTANT))
        (P.key_exchange dlk.1 seph.2 seph.1 false) ∧
    (send.server_first P slk seph challenge deph.1 dlk.1).1.from_server =
      P.state_new
        (P.sha256 (P.key_exchange deph.1 seph.2 seph.1 false ++
          send.SERVER_ENC_KEY_CONSTANT))
        (P.key_exchange deph.1 slk.2 slk.1 false) := by
  refine ⟨?_, rfl, rfl⟩
  simp only [send.server_first, send.device_second, send.hash_two_things]
  rw [h1, h2, h3]

/-- Witness for C2 with concrete commuting primitives. -/
theorem c2_witness :
    (model_prims.key_exchange [2] [3] [3] false =
       model_prims.key_exchange [3] [2] [2] true ∧
     model_prims.key_exchange [5] [3] [3] false =
       model_prims.key_exchange [3] [5] [5] true ∧
     model_prims.key_exchange [2] [7] [7] false =
       model_prims.key_exchange [7] [2] [2] true) ∧
    (send.server_first model_prims ([7], [7]) ([3], [3]) [9] [2] [5]).1 =
      (send.device_second model_prims [7] [3] [9] ([5], [5]) ([2], [2])).1 :=
  ⟨⟨rfl, rfl, rfl⟩,
   (c2_session_keys_agree model_prims ([5], [5]) ([7], [7]) ([2], [2]) ([3], [3])
      [9] rfl rfl rfl).1⟩


/-- C1: for any payload of at most 65535 bytes and any 16-bit message
number, encoding with `send::message` under a symmetric state satisfying the
AEAD contract and then receiving the record with `receive::general` under
the same state yields a DATA `Message` carrying exactly the payload and the
number, consuming the whole record. -/
theorem c1_message_roundtrip (S : State) (hS : GoodAEAD S) (p : List Nat)
    (n : Nat) (hp : p.length ≤ 65535) (hn : n < 65536) :
    receive.general [send.message p S n] S = .ok (⟨n, .Message p⟩, []) := by
  obtain ⟨hdec, henc_len, hverify, htag_len⟩ := hS
  set lb := u16_to_bytes p.length with hlb
  set tg := S.plain_auth_tag lb n with htg
  set ct := S.authenticated_encryption p n with hct
  have hlb2 : lb.length = 2 := by rw [hlb]; simp [u16_to_bytes]
  have htg16 : tg.length = 16 := htag_len lb n
  have hctlen : ct.length = p.length + 16 := by
    have := henc_len p n
    rw [← hct] at this
    simpa [AUTH_TAG_BYTES] using this
  have hmsg : send.message p S n =
      construct_header opcodes.MESSAGE n ++ ((lb ++ tg) ++ ct) := by
    simp [send.message, List.append_assoc, ← hlb, ← htg, ← hct]
  have hbody_ne : (((lb ++ tg) ++ ct)).isEmpty = false := by
    rw [hlb]
    simp [u16_to_bytes]
  have hheader : receive.get_header [send.message p S n] =
      .ok (opcodes.MESSAGE, n, [(lb ++ tg) ++ ct]) := by
    rw [hmsg, get_header_append opcodes.MESSAGE n ((lb ++ tg) ++ ct) hn,
      hbody_ne]
    simp
  have hctne : ct.isEmpty = false := by
    cases hc : ct with
    | nil => rw [hc] at hctlen; simp at hctlen
    | cons a l => rfl
  have hread18 : receive.get_n_bytes [(lb ++ tg) ++ ct] (2 + AUTH_TAG_BYTES) =
      .ok (lb ++ tg, [ct]) := by
    have hpre : (lb ++ tg).length = 2 + AUTH_TAG_BYTES := by
      simp [hlb2, htg16, AUTH_TAG_BYTES]
    have h := get_n_bytes_append (lb ++ tg) ct [] (2 + AUTH_TAG_BYTES) hpre
    rw [h, hctne]
    simp
  have hreadct : receive.get_n_bytes [ct] (p.length + AUTH_TAG_BYTES) =
      .ok (ct, []) := by
    have hpre : ct.length = p.length + AUTH_TAG_BYTES := by
      simpa [AUTH_TAG_BYTES] using hctlen
    have h := get_n_bytes_append ct [] [] (p.length + AUTH_TAG_BYTES) hpre
    simpa using h
  have htake2 : (lb ++ tg).take 2 = lb := List.take_left' hlb2
  have hdrop2 : (lb ++ tg).drop 2 = tg := List.drop_left' hlb2
  have hlbu : two_bytes_to_u16 lb = p.length := by
    rw [hlb]
    exact two_bytes_to_u16_u16_to_bytes p.length (by omega)
  unfold receive.general
  simp only [hheader]
  rw [if_neg (by norm_num [opcodes.MESSAGE, opcodes.MAX_NOCRYPT, opcodes.SERVER_FIRST])]
  unfold receive.parse_crypt_message
  rw [if_neg (by norm_num [opcodes.MESSAGE, opcodes.ERROR]), if_pos rfl]
  simp only [hread18, htake2, hdrop2, hverify, if_true, hlbu, hreadct, hdec]

/-- Witness for C1 at the repository test's payload and number 1055. -/
theorem c1_witness :
    GoodAEAD model_state ∧
    receive.general [send.message [222, 173, 190, 239] model_state 1055] model_state =
      .ok (⟨1055, .Message [222, 173, 190, 239]⟩, []) :=
  ⟨model_state_good,
   c1_message_roundtrip model_state model_state_good [222, 173, 190, 239] 1055
     (by decide) (by decide)⟩


/-- Witness for C6 at concrete counter states. -/
theorem c6_witness :
    (check_recv_number ⟨2, 1⟩ 1 = some (true, ⟨2, 2⟩) ∧
     next_message_number ⟨2, 1⟩ = some (2, ⟨3, 1⟩)) ∧
    (((true = true) ↔
        (1 = (⟨2, 1⟩ : ProtocolState).next_recv_n ∧
         (⟨2, 1⟩ : ProtocolState).next_recv_n < 65535)) ∧
     (true = true →
        (⟨2, 2⟩ : ProtocolState).next_recv_n =
            (⟨2, 1⟩ : ProtocolState).next_recv_n + 1 ∧
          (⟨2, 2⟩ : ProtocolState).next_recv_n ≤ 65535 ∧
          (⟨2, 2⟩ : ProtocolState).next_send_n =
            (⟨2, 1⟩ : ProtocolState).next_send_n) ∧
     (true = false →
        (⟨2, 2⟩ : ProtocolState).next_recv_n =
          (⟨2, 1⟩ : ProtocolState).next_recv_n)) ∧
    ((2 : Nat) = (⟨2, 1⟩ : ProtocolState).next_send_n ∧
     (⟨3, 1⟩ : ProtocolState).next_send_n =
       (⟨2, 1⟩ : ProtocolState).next_send_n + 1 ∧
     (⟨3, 1⟩ : ProtocolState).next_send_n ≤ 65535) :=
  ⟨⟨rfl, rfl⟩,
   c6_counters.1 ⟨2, 1⟩ 1 true ⟨2, 2⟩ (by decide) rfl,
   c6_counters.2 ⟨2, 1⟩ 2 ⟨3, 1⟩ (by decide) rfl⟩

/-- Witness for C7 at the saturated counter. -/
theorem c7_witness :
    (⟨65535, 7⟩ : ProtocolState).next_send_n = 65535 ∧
    next_message_number_fuel 5 ⟨65535, 7⟩ = none :=
  ⟨rfl, c7_diverges 5 ⟨65535, 7⟩ rfl⟩

/-- Witness for the amended C8: one full single read, and one short single
read with more bytes waiting in the next chunk. -/
theorem c8_witness :
    ((2 : Nat) ≤ [5, 6, 7].length ∧
      receive.get_n_bytes [[5, 6, 7]] 2 =
        .ok ([5, 6, 7].take 2,
          if ([5, 6, 7].drop 2).isEmpty then ([] : Stream)
          else [[5, 6, 7].drop 2])) ∧
    ([10].length < 2 ∧
      receive.get_n_bytes [[10], [20]] 2 =
        .error (.NotEnoughRead [10].length)) :=
  ⟨⟨by decide, (c8_single_read [5, 6, 7] [] 2).1 (by decide)⟩,
   ⟨by decide, (c8_single_read [10] [[20]] 2).2 (by decide)⟩⟩


end ProjNet
